import Mathlib

/-!
Shallow embedding of the Particles-Flow-Field-Simulation core
(src/src/core/Particle.ts, src/src/FlowField.js aka src/unnamed/part_000,
and the ParticleSystem of src/unnamed/part_001), with theorems settling the
spec claims.  JavaScript numbers are modelled as real numbers; Math.random
draws are modelled as explicit real-valued streams supplied by the caller.
-/

/-- Embeds the Vector2D interface of src/src/types/index.ts. -/
structure Vector2D where
  x : ℝ
  y : ℝ

/-- Embeds the HistoryPoint interface (a plain (x, y) pair). -/
abbrev HistoryPoint := ℝ × ℝ

/-- Embeds the Particle class state of src/src/core/Particle.ts. -/
structure Particle where
  x : ℝ
  y : ℝ
  vx : ℝ
  vy : ℝ
  width : ℝ
  height : ℝ
  maxSpeed : ℝ
  hue : ℝ
  history : List HistoryPoint
  maxHistory : ℕ

/-- Embeds the Particle constructor (Particle.ts lines 24-32): the x, y
arguments are accepted but not used by the source constructor; the position
is drawn with a 50-unit padding from the edges, with rx, ry, rh standing for
the three Math.random() draws. -/
noncomputable def Particle.make (x y width height rx ry rh : ℝ) : Particle :=
  { x := 50 + rx * (width - 50 * 2)
    y := 50 + ry * (height - 50 * 2)
    vx := 0
    vy := 0
    width := width
    height := height
    maxSpeed := 2
    hue := rh * 360
    history := []
    maxHistory := 20 }

/-- The bounced flag computed inside Particle.handleBoundaries
(Particle.ts lines 70-95): true iff some axis leaves [margin, bound-margin],
margin = 2. -/
def Particle.didBounce (p : Particle) : Prop :=
  p.x < 2 ∨ p.x > p.width - 2 ∨ p.y < 2 ∨ p.y > p.height - 2

noncomputable instance (p : Particle) : Decidable p.didBounce := by
  unfold Particle.didBounce; infer_instance

/-- Embeds Particle.handleBoundaries (Particle.ts lines 70-101): clamp each
axis to [margin, bound-margin] with margin 2, reflecting the velocity
component with damping 0.7 (to positive at the low edge, to negative at the
high edge), and clear the history when any bounce happened. -/
noncomputable def Particle.handleBoundaries (p : Particle) : Particle :=
  { p with
    x := if p.x < 2 then 2 else if p.x > p.width - 2 then p.width - 2 else p.x
    vx := if p.x < 2 then |p.vx| * 0.7
          else if p.x > p.width - 2 then -(|p.vx| * 0.7) else p.vx
    y := if p.y < 2 then 2 else if p.y > p.height - 2 then p.height - 2 else p.y
    vy := if p.y < 2 then |p.vy| * 0.7
          else if p.y > p.height - 2 then -(|p.vy| * 0.7) else p.vy
    history := if p.didBounce then [] else p.history }

/-- The currentSpeed captured at Particle.ts line 43: the velocity magnitude
after the force impulse is applied but before the clamp.  This same value is
reused at line 63 to derive the hue. -/
noncomputable def Particle.preClampSpeed (p : Particle) (force : Vector2D) : ℝ :=
  Real.sqrt ((p.vx + force.x * 0.3) * (p.vx + force.x * 0.3) +
             (p.vy + force.y * 0.3) * (p.vy + force.y * 0.3))

/-- Embeds Particle.update lines 38-57: force impulse (factor 0.3), speed
clamp to maxSpeed, history push with front eviction past maxHistory, and
position integration scaled by speed. -/
noncomputable def Particle.integrate (p : Particle) (force : Vector2D) (speed : ℝ) :
    Particle :=
  let vx1 := p.vx + force.x * 0.3
  let vy1 := p.vy + force.y * 0.3
  let currentSpeed := p.preClampSpeed force
  let vx2 := if currentSpeed > p.maxSpeed then vx1 / currentSpeed * p.maxSpeed else vx1
  let vy2 := if currentSpeed > p.maxSpeed then vy1 / currentSpeed * p.maxSpeed else vy1
  let hist1 := p.history ++ [(p.x, p.y)]
  let hist2 := if p.maxHistory < hist1.length then hist1.tail else hist1
  { p with
    x := p.x + vx2 * speed
    y := p.y + vy2 * speed
    vx := vx2
    vy := vy2
    history := hist2 }

/-- Embeds Particle.update (Particle.ts lines 37-65): integration, boundary
handling, then the hue update, which divides the stale pre-clamp currentSpeed
of line 43 by maxSpeed and scales to the 0-120 hue range. -/
noncomputable def Particle.update (p : Particle) (force : Vector2D) (speed : ℝ) :
    Particle :=
  let q := (p.integrate force speed).handleBoundaries
  { q with hue := p.preClampSpeed force / p.maxSpeed * 120 }

/-- Folds Particle.update over a list of (force, speedScale) frames. -/
noncomputable def Particle.run (p : Particle) (steps : List (Vector2D × ℝ)) : Particle :=
  steps.foldl (fun q st => q.update st.1 st.2) p

/-- Math.atan2(y, x), modelled as the principal argument of x + iy. -/
noncomputable def atan2 (y x : ℝ) : ℝ := Complex.arg ⟨x, y⟩

/-- Embeds the FlowField class state (src/unnamed/part_000 lines 6-43).
The mode is a String, as in src/src/FlowField.js, so that unrecognized tags
are representable; perm is the 512-entry permutation table read as a total
function on indices. -/
structure FlowField where
  width : ℝ
  height : ℝ
  mode : String
  scale : ℝ
  time : ℝ
  timeSpeed : ℝ
  mouseX : ℝ
  mouseY : ℝ
  mouseRadius : ℝ
  mouseForce : ℝ
  mousePressed : Bool
  perm : ℕ → ℕ

/-- Embeds FlowField.fade: f(t) = 6t^5 - 15t^4 + 10t^3 in Horner form. -/
def FlowField.fade (t : ℝ) : ℝ := t * t * t * (t * (t * 6 - 15) + 10)

/-- Embeds FlowField.lerp. -/
def FlowField.lerp (a b t : ℝ) : ℝ := (1 - t) * a + t * b

/-- Embeds FlowField.grad: hash selects one of four +-x +-y combinations. -/
def FlowField.grad (hash : ℕ) (x y : ℝ) : ℝ :=
  let h := hash &&& 3
  let u := if h < 2 then x else y
  let v := if h < 2 then y else x
  (if h &&& 1 = 0 then u else -u) + (if h &&& 2 = 0 then v else -v)

/-- Embeds FlowField.noise2D (part_000 lines 77-107).  JavaScript's
Math.floor(x) & 255 on the int32 floor equals the nonnegative residue of
the floor mod 256. -/
noncomputable def FlowField.noise2D (f : FlowField) (x y : ℝ) : ℝ :=
  let X := (⌊x⌋ % 256).toNat
  let Y := (⌊y⌋ % 256).toNat
  let xf := x - ⌊x⌋
  let yf := y - ⌊y⌋
  let u := FlowField.fade xf
  let v := FlowField.fade yf
  let A := f.perm X + Y
  let AA := f.perm A
  let AB := f.perm (A + 1)
  let B := f.perm (X + 1) + Y
  let BA := f.perm B
  let BB := f.perm (B + 1)
  FlowField.lerp
    (FlowField.lerp (FlowField.grad (f.perm AA) xf yf)
      (FlowField.grad (f.perm BA) (xf - 1) yf) u)
    (FlowField.lerp (FlowField.grad (f.perm AB) xf (yf - 1))
      (FlowField.grad (f.perm BB) (xf - 1) (yf - 1)) u)
    v

/-- Embeds FlowField.calculateGalaxyAngle (part_000 lines 164-176). -/
noncomputable def FlowField.calculateGalaxyAngle (f : FlowField) (x y : ℝ) : ℝ :=
  let centerX := f.width / 2
  let centerY := f.height / 2
  let dx := x - centerX
  let dy := y - centerY
  let dist := Real.sqrt (dx * dx + dy * dy)
  let baseAngle := atan2 dy dx
  baseAngle + dist * 0.01 + f.noise2D (x / f.scale) (y / f.scale) * 0.5

/-- Embeds FlowField.calculateVortexAngle (part_000 lines 178-193). -/
noncomputable def FlowField.calculateVortexAngle (f : FlowField) (x y : ℝ) : ℝ :=
  let vortexX := f.width / 2
  let vortexY := f.height / 2
  let vdx := x - vortexX
  let vdy := y - vortexY
  let vdist := Real.sqrt (vdx * vdx + vdy * vdy)
  let angle := atan2 vdy vdx + Real.pi / 2 + vdist * 0.005
  angle + f.noise2D (x / (f.scale * 0.5)) (y / (f.scale * 0.5) + f.time) * 1.5

/-- Embeds FlowField.calculateChaosAngle (part_000 lines 195-211). -/
noncomputable def FlowField.calculateChaosAngle (f : FlowField) (x y : ℝ) : ℝ :=
  let angle1 :=
    f.noise2D (x / (f.scale * 0.3)) (y / (f.scale * 0.3) + f.time * 2) * Real.pi * 4
  let angle2 :=
    f.noise2D (x / (f.scale * 0.5)) (y / (f.scale * 0.5) - f.time) * Real.pi * 2
  angle1 + angle2

/-- Embeds FlowField.calculateWaveAngle (part_000 lines 213-223). -/
noncomputable def FlowField.calculateWaveAngle (f : FlowField) (x y : ℝ) : ℝ :=
  let waveFreq := 0.01
  let waveSpeed := f.time * 200
  let wave1 := Real.sin ((y + waveSpeed) * waveFreq) * Real.pi
  let wave2 := Real.sin ((x - waveSpeed * 0.7) * waveFreq) * Real.pi
  wave1 + wave2 + f.noise2D (x / f.scale) (y / f.scale + f.time * 0.5) * 0.3

/-- Embeds FlowField.calculateMagneticAngle (part_000 lines 225-256). -/
noncomputable def FlowField.calculateMagneticAngle (f : FlowField) (x y : ℝ) : ℝ :=
  let pole1X := f.width * 0.3
  let pole1Y := f.height * 0.5
  let pole2X := f.width * 0.7
  let pole2Y := f.height * 0.5
  let dx1 := x - pole1X
  let dy1 := y - pole1Y
  let dist1 := Real.sqrt (dx1 * dx1 + dy1 * dy1) + 1
  let angle1 := atan2 dy1 dx1
  let force1 := 100 / dist1
  let dx2 := x - pole2X
  let dy2 := y - pole2Y
  let dist2 := Real.sqrt (dx2 * dx2 + dy2 * dy2) + 1
  let angle2 := atan2 dy2 dx2
  let force2 := 100 / dist2
  let forceX := Real.cos angle1 * force1 - Real.cos (angle2 + Real.pi) * force2
  let forceY := Real.sin angle1 * force1 - Real.sin (angle2 + Real.pi) * force2
  atan2 forceY forceX +
    f.noise2D (x / (f.scale * 2)) (y / (f.scale * 2) + f.time) * 0.5

/-- Embeds FlowField.calculateAngle (part_000 lines 135-162): dispatch on the
mode tag, with the default branch returning 0. -/
noncomputable def FlowField.calculateAngle (f : FlowField) (x y : ℝ) : ℝ :=
  if f.mode = "flow" then
    f.noise2D (x / f.scale) (y / f.scale + f.time) * Real.pi * 2
  else if f.mode = "galaxy" then f.calculateGalaxyAngle x y
  else if f.mode = "vortex" then f.calculateVortexAngle x y
  else if f.mode = "chaos" then f.calculateChaosAngle x y
  else if f.mode = "wave" then f.calculateWaveAngle x y
  else if f.mode = "magnetic" then f.calculateMagneticAngle x y
  else 0

/-- Embeds FlowField.applyMouseInteraction (part_000 lines 261-276). -/
noncomputable def FlowField.applyMouseInteraction (f : FlowField) (x y angle : ℝ) : ℝ :=
  if f.mousePressed then
    let dx := x - f.mouseX
    let dy := y - f.mouseY
    let distToMouse := Real.sqrt (dx * dx + dy * dy)
    if distToMouse < f.mouseRadius then
      let influence := 1 - distToMouse / f.mouseRadius
      let mouseAngle := atan2 dy dx + Real.pi
      let mixFactor := influence * f.mouseForce
      angle * (1 - mixFactor) + mouseAngle * mixFactor
    else angle
  else angle

/-- Embeds FlowField.getVector (part_000 lines 122-130): the mode angle,
perturbed by the pointer, converted to (cos, sin). -/
noncomputable def FlowField.getVector (f : FlowField) (x y : ℝ) : Vector2D :=
  let angle := f.applyMouseInteraction x y (f.calculateAngle x y)
  { x := Real.cos angle, y := Real.sin angle }

/-- Embeds the body of FlowField.initPerlin filling p (part_000 lines 49-52):
p i is Math.floor(rand i * 256), with rand i the i-th Math.random() draw. -/
noncomputable def initPerlinP (rand : ℕ → ℝ) (i : ℕ) : ℕ :=
  (⌊rand i * 256⌋).toNat

/-- Embeds the perm table built by FlowField.initPerlin (part_000 lines
54-57): perm i = p (i & 255). -/
noncomputable def initPerlinPerm (rand : ℕ → ℝ) (i : ℕ) : ℕ :=
  initPerlinP rand (i &&& 255)

/-- One bundle of the Math.random() draws consumed per appended particle:
the two coordinates computed by ParticleSystem.setParticleCount and the
three draws made inside the Particle constructor. -/
structure RandomDraw where
  xArg : ℝ
  yArg : ℝ
  px : ℝ
  py : ℝ
  phue : ℝ

/-- Embeds the simulation-relevant ParticleSystem state
(src/unnamed/part_001 lines 9-27); rendering resources are out of scope. -/
structure ParticleSystem where
  width : ℝ
  height : ℝ
  particleCount : ℕ
  particles : List Particle
  speed : ℝ
  trailAlpha : ℝ
  flowField : FlowField

/-- Embeds ParticleSystem.setParticleCount (part_001 lines 179-194): grow by
appending constructor-built particles (passing Math.random()-scaled
coordinates that the constructor ignores), shrink by slicing, always store
the new count. -/
noncomputable def ParticleSystem.setParticleCount (sys : ParticleSystem) (count : ℕ)
    (rand : ℕ → RandomDraw) : ParticleSystem :=
  if sys.particleCount < count then
    let toAdd := count - sys.particleCount
    let newParticles := (List.range toAdd).map (fun i =>
      Particle.make ((rand i).xArg * sys.width) ((rand i).yArg * sys.height)
        sys.width sys.height (rand i).px (rand i).py (rand i).phue)
    { sys with particles := sys.particles ++ newParticles, particleCount := count }
  else if count < sys.particleCount then
    { sys with particles := sys.particles.take count, particleCount := count }
  else
    { sys with particleCount := count }

/-- Modelled from the spec: the claim's "positions uniformly drawn from the
current simulation bounds" places a new particle coordinate at
draw * bound, the draw ranging over [0, 1). -/
noncomputable def specUniformCoordinate (bound r : ℝ) : ℝ := r * bound

/-- A concrete flow field in mode "flow" with pointer inactive. -/
noncomputable def sampleField : FlowField :=
  { width := 800, height := 600, mode := "flow", scale := 100, time := 0,
    timeSpeed := 0.0003, mouseX := 400, mouseY := 300, mouseRadius := 150,
    mouseForce := 0.5, mousePressed := false, perm := fun _ => 0 }

/-- A concrete flow field whose mode tag is not one of the six. -/
noncomputable def unknownModeField : FlowField :=
  { width := 800, height := 600, mode := "spiral", scale := 100, time := 0,
    timeSpeed := 0.0003, mouseX := 400, mouseY := 300, mouseRadius := 150,
    mouseForce := 0.5, mousePressed := false, perm := fun _ => 0 }

/-- C1: for every flow-field state (hence every one of the six modes) and
every point, getVector returns (cos θ, sin θ) for some angle θ, so its
Euclidean norm is exactly 1. -/
theorem getVector_is_unit_vector (f : FlowField) (x y : ℝ) :
    (∃ θ, f.getVector x y = { x := Real.cos θ, y := Real.sin θ }) ∧
    Real.sqrt ((f.getVector x y).x ^ 2 + (f.getVector x y).y ^ 2) = 1 := by
  refine ⟨⟨f.applyMouseInteraction x y (f.calculateAngle x y), rfl⟩, ?_⟩
  show Real.sqrt (Real.cos _ ^ 2 + Real.sin _ ^ 2) = 1
  rw [Real.cos_sq_add_sin_sq, Real.sqrt_one]

/-- C9: an unrecognized mode tag falls through to the default angle 0, so
with the pointer inactive getVector returns (cos 0, sin 0) = (1, 0). -/
theorem getVector_unknown_mode_default (f : FlowField) (x y : ℝ)
    (hmode : f.mode ∉ (["flow", "galaxy", "vortex", "chaos", "wave",
      "magnetic"] : List String))
    (hmouse : f.mousePressed = false) :
    f.getVector x y = { x := 1, y := 0 } := by
  simp only [List.mem_cons, List.not_mem_nil, or_false, not_or] at hmode
  obtain ⟨h1, h2, h3, h4, h5, h6⟩ := hmode
  unfold FlowField.getVector FlowField.applyMouseInteraction FlowField.calculateAngle
  simp [hmouse, h1, h2, h3, h4, h5, h6, Real.cos_zero, Real.sin_zero]

/-- Witness for C9 at the concrete field with mode "spiral". -/
theorem getVector_unknown_mode_default_witness :
    unknownModeField.mode ∉ (["flow", "galaxy", "vortex", "chaos", "wave",
      "magnetic"] : List String) ∧
    unknownModeField.mousePressed = false ∧
    unknownModeField.getVector 0 0 = { x := 1, y := 0 } :=
  ⟨by decide, rfl, getVector_unknown_mode_default unknownModeField 0 0 (by decide) rfl⟩

/-- C10: with the pointer inactive, getVector does not depend on the stored
pointer position: overwriting mouseX and mouseY leaves the result unchanged. -/
theorem getVector_ignores_pointer_when_inactive (f : FlowField) (a b x y : ℝ)
    (h : f.mousePressed = false) :
    FlowField.getVector { f with mouseX := a, mouseY := b } x y =
      f.getVector x y := by
  unfold FlowField.getVector FlowField.applyMouseInteraction
  rw [h]
  exact rfl

/-- Witness for C10 at a concrete pointer-inactive field. -/
theorem getVector_ignores_pointer_when_inactive_witness :
    sampleField.mousePressed = false ∧
    FlowField.getVector { sampleField with mouseX := 5, mouseY := 6 } 1 2 =
      sampleField.getVector 1 2 :=
  ⟨rfl, getVector_ignores_pointer_when_inactive sampleField 5 6 1 2 rfl⟩

/-- The spec scenario particle: at (1, 300) in an 800x600 field with
velocity (-1, 0), fresh history. -/
noncomputable def scenarioParticle : Particle :=
  { x := 1, y := 300, vx := -1, vy := 0, width := 800, height := 600,
    maxSpeed := 2, hue := 0, history := [], maxHistory := 20 }

/-- C8: one update with force (0, 0) and speed 1 from (1, 300) with velocity
(-1, 0) reflects vx to +0.7, clamps x to the margin 2, and clears history. -/
theorem scenario_left_bounce :
    (scenarioParticle.update { x := 0, y := 0 } 1).vx = 0.7 ∧
    (scenarioParticle.update { x := 0, y := 0 } 1).x = 2 ∧
    (scenarioParticle.update { x := 0, y := 0 } 1).history = [] := by
  have hs : scenarioParticle.preClampSpeed { x := 0, y := 0 } = 1 := by
    unfold Particle.preClampSpeed scenarioParticle
    norm_num [Real.sqrt_one]
  unfold Particle.update Particle.integrate Particle.handleBoundaries
    Particle.didBounce
  rw [hs]
  unfold scenarioParticle
  norm_num

/-- The squared magnitude of the clamped velocity (Particle.ts lines 43-47)
is at most maxSpeed squared, for any nonnegative bound. -/
theorem clamp_sq_le (a b M : ℝ) (hM : 0 ≤ M) :
    (if Real.sqrt (a * a + b * b) > M then a / Real.sqrt (a * a + b * b) * M else a) *
      (if Real.sqrt (a * a + b * b) > M then a / Real.sqrt (a * a + b * b) * M else a) +
    (if Real.sqrt (a * a + b * b) > M then b / Real.sqrt (a * a + b * b) * M else b) *
      (if Real.sqrt (a * a + b * b) > M then b / Real.sqrt (a * a + b * b) * M else b) ≤
      M * M := by
  have hab : 0 ≤ a * a + b * b := add_nonneg (mul_self_nonneg a) (mul_self_nonneg b)
  have hs0 : 0 ≤ Real.sqrt (a * a + b * b) := Real.sqrt_nonneg _
  have hss : Real.sqrt (a * a + b * b) * Real.sqrt (a * a + b * b) = a * a + b * b :=
    Real.mul_self_sqrt hab
  by_cases h : Real.sqrt (a * a + b * b) > M
  · have hspos : 0 < Real.sqrt (a * a + b * b) := lt_of_le_of_lt hM h
    simp only [if_pos h]
    have hexp : a / Real.sqrt (a * a + b * b) * M * (a / Real.sqrt (a * a + b * b) * M) +
        b / Real.sqrt (a * a + b * b) * M * (b / Real.sqrt (a * a + b * b) * M) =
        (a * a + b * b) * (M * M) /
          (Real.sqrt (a * a + b * b) * Real.sqrt (a * a + b * b)) := by
      field_simp
      ring
    have hpos2 : 0 < a * a + b * b := hss ▸ mul_pos hspos hspos
    rw [hexp, hss, mul_comm, mul_div_assoc, div_self hpos2.ne', mul_one]
  · push_neg at h
    simp only [if_neg (not_lt.mpr h)]
    calc a * a + b * b = _ := hss.symm
    _ ≤ M * M := mul_self_le_mul_self hs0 h

/-- The boundary reflection of one velocity component (damping 0.7) never
increases its square. -/
theorem reflect_sq_le (c w v : ℝ) :
    (if c < 2 then |v| * 0.7 else if c > w - 2 then -(|v| * 0.7) else v) *
      (if c < 2 then |v| * 0.7 else if c > w - 2 then -(|v| * 0.7) else v) ≤ v * v := by
  have hd : |v| * 0.7 * (|v| * 0.7) ≤ v * v := by
    nlinarith [abs_mul_abs_self v, abs_nonneg v, mul_self_nonneg v]
  split_ifs with h1 h2
  · exact hd
  · rw [neg_mul_neg]; exact hd
  · exact le_rfl

/-- Boundary handling never increases the squared velocity magnitude. -/
theorem handleBoundaries_sq_le (p : Particle) :
    p.handleBoundaries.vx * p.handleBoundaries.vx +
      p.handleBoundaries.vy * p.handleBoundaries.vy ≤
      p.vx * p.vx + p.vy * p.vy := by
  unfold Particle.handleBoundaries
  exact add_le_add (reflect_sq_le p.x p.width p.vx) (reflect_sq_le p.y p.height p.vy)

/-- After one update the squared velocity magnitude is at most maxSpeed
squared, for any force and speed scale. -/
theorem update_speed_sq_le (p : Particle) (force : Vector2D) (speed : ℝ)
    (hM : 0 ≤ p.maxSpeed) :
    (p.update force speed).vx * (p.update force speed).vx +
      (p.update force speed).vy * (p.update force speed).vy ≤
      p.maxSpeed * p.maxSpeed := by
  have h1 : (p.update force speed).vx = (p.integrate force speed).handleBoundaries.vx := rfl
  have h2 : (p.update force speed).vy = (p.integrate force speed).handleBoundaries.vy := rfl
  rw [h1, h2]
  refine le_trans (handleBoundaries_sq_le _) ?_
  exact clamp_sq_le (p.vx + force.x * 0.3) (p.vy + force.y * 0.3) p.maxSpeed hM

/-- Bridges a squared-magnitude bound to a bound on the magnitude itself. -/
theorem speed_le_of_sq_le (a b M : ℝ) (hM : 0 ≤ M) (h : a * a + b * b ≤ M * M) :
    Real.sqrt (a * a + b * b) ≤ M := by
  calc Real.sqrt (a * a + b * b) ≤ Real.sqrt (M * M) := Real.sqrt_le_sqrt h
  _ = M := Real.sqrt_mul_self hM

/-- C2: for a particle with maxSpeed 2, after any nonempty sequence of
updates whose forces are unit vectors, the velocity magnitude is at most 2. -/
theorem velocity_le_maxSpeed_after_updates (p : Particle) (steps : List (Vector2D × ℝ))
    (hmax : p.maxSpeed = 2) (hne : steps ≠ [])
    (hunit : ∀ st ∈ steps, st.1.x * st.1.x + st.1.y * st.1.y = 1) :
    Real.sqrt ((p.run steps).vx * (p.run steps).vx +
      (p.run steps).vy * (p.run steps).vy) ≤ 2 := by
  induction steps generalizing p with
  | nil => exact absurd rfl hne
  | cons st rest ih =>
    by_cases hr : rest = []
    · subst hr
      have h1 : p.run [st] = p.update st.1 st.2 := rfl
      rw [h1]
      have hM : (0 : ℝ) ≤ p.maxSpeed := by rw [hmax]; norm_num
      have h2 := update_speed_sq_le p st.1 st.2 hM
      rw [hmax] at h2
      exact speed_le_of_sq_le _ _ 2 (by norm_num) h2
    · have h1 : p.run (st :: rest) = (p.update st.1 st.2).run rest := rfl
      rw [h1]
      exact ih (p.update st.1 st.2) hmax hr
        (fun s hs => hunit s (List.mem_cons_of_mem _ hs))

/-- A generic mid-field particle used by witnesses. -/
noncomputable def witnessParticle : Particle :=
  { x := 400, y := 300, vx := 0, vy := 0, width := 800, height := 600,
    maxSpeed := 2, hue := 0, history := [], maxHistory := 20 }

/-- Witness for C2 at a concrete particle and one unit-force frame. -/
theorem velocity_le_maxSpeed_after_updates_witness :
    witnessParticle.maxSpeed = 2 ∧
    ([({ x := 1, y := 0 }, 1)] : List (Vector2D × ℝ)) ≠ [] ∧
    (∀ st ∈ ([({ x := 1, y := 0 }, 1)] : List (Vector2D × ℝ)),
      st.1.x * st.1.x + st.1.y * st.1.y = 1) ∧
    Real.sqrt ((witnessParticle.run [({ x := 1, y := 0 }, 1)]).vx *
        (witnessParticle.run [({ x := 1, y := 0 }, 1)]).vx +
      (witnessParticle.run [({ x := 1, y := 0 }, 1)]).vy *
        (witnessParticle.run [({ x := 1, y := 0 }, 1)]).vy) ≤ 2 :=
  ⟨rfl, by simp, by
      intro st hst
      rw [List.mem_singleton] at hst
      subst hst
      norm_num,
    velocity_le_maxSpeed_after_updates witnessParticle [({ x := 1, y := 0 }, 1)] rfl
      (by simp)
      (by
        intro st hst
        rw [List.mem_singleton] at hst
        subst hst
        norm_num)⟩

/-- The axis clamp of handleBoundaries lands in [2, bound - 2] whenever the
bound is at least twice the margin. -/
theorem clampAxis_bounds (c w : ℝ) (hw : 2 * 2 ≤ w) :
    2 ≤ (if c < 2 then (2 : ℝ) else if c > w - 2 then w - 2 else c) ∧
    (if c < 2 then (2 : ℝ) else if c > w - 2 then w - 2 else c) ≤ w - 2 := by
  split_ifs with h1 h2
  · exact ⟨le_rfl, by linarith⟩
  · exact ⟨by linarith, le_rfl⟩
  · push_neg at h1 h2
    exact ⟨h1, h2⟩

/-- C3: when both bounds are at least twice the margin 2, every update leaves
the position inside [margin, bound - margin] on each axis. -/
theorem position_within_margins (p : Particle) (force : Vector2D) (speed : ℝ)
    (hw : 2 * 2 ≤ p.width) (hh : 2 * 2 ≤ p.height) :
    2 ≤ (p.update force speed).x ∧ (p.update force speed).x ≤ p.width - 2 ∧
    2 ≤ (p.update force speed).y ∧ (p.update force speed).y ≤ p.height - 2 := by
  have hx := clampAxis_bounds (p.integrate force speed).x p.width hw
  have hy := clampAxis_bounds (p.integrate force speed).y p.height hh
  exact ⟨hx.1, hx.2, hy.1, hy.2⟩

/-- Witness for C3 at a concrete particle. -/
theorem position_within_margins_witness :
    2 * 2 ≤ witnessParticle.width ∧ 2 * 2 ≤ witnessParticle.height ∧
    (2 ≤ (witnessParticle.update { x := 1, y := 0 } 1).x ∧
      (witnessParticle.update { x := 1, y := 0 } 1).x ≤ witnessParticle.width - 2 ∧
      2 ≤ (witnessParticle.update { x := 1, y := 0 } 1).y ∧
      (witnessParticle.update { x := 1, y := 0 } 1).y ≤ witnessParticle.height - 2) :=
  ⟨by norm_num [witnessParticle], by norm_num [witnessParticle],
    position_within_margins witnessParticle { x := 1, y := 0 } 1
      (by norm_num [witnessParticle]) (by norm_num [witnessParticle])⟩

/-- C4: starting from a history of at most 20 entries, an update keeps the
history at most 20 entries long (pushing then evicting the front past 20),
and the history ends the call empty exactly when that call bounced. -/
theorem history_bounded_and_cleared_iff (p : Particle) (force : Vector2D) (speed : ℝ)
    (hlen : p.history.length ≤ 20) (hmaxh : p.maxHistory = 20) :
    (p.update force speed).history.length ≤ 20 ∧
    ((p.update force speed).history = [] ↔ (p.integrate force speed).didBounce) := by
  have hh : (p.update force speed).history =
      (if (p.integrate force speed).didBounce then []
       else (p.integrate force speed).history) := rfl
  have hq : (p.integrate force speed).history =
      (if p.maxHistory < (p.history ++ [(p.x, p.y)]).length
       then (p.history ++ [(p.x, p.y)]).tail
       else p.history ++ [(p.x, p.y)]) := rfl
  have hne : (p.integrate force speed).history ≠ [] := by
    rw [hq]
    split_ifs with he
    · intro h0
      have h1 : (p.history ++ [(p.x, p.y)]).tail.length = 0 := by rw [h0]; rfl
      rw [List.length_tail, List.length_append, List.length_singleton] at h1
      rw [hmaxh, List.length_append, List.length_singleton] at he
      omega
    · simp
  constructor
  · rw [hh]
    split_ifs with hb
    · simp
    · rw [hq]
      split_ifs with he
      · rw [List.length_tail, List.length_append, List.length_singleton]
        omega
      · rw [hmaxh] at he
        push_neg at he
        exact he
  · rw [hh]
    split_ifs with hb
    · simp [hb]
    · exact ⟨fun h0 => absurd h0 hne, fun h0 => absurd h0 hb⟩

/-- Witness for C4 at a concrete particle with empty history. -/
theorem history_bounded_and_cleared_iff_witness :
    witnessParticle.history.length ≤ 20 ∧ witnessParticle.maxHistory = 20 ∧
    ((witnessParticle.update { x := 1, y := 0 } 1).history.length ≤ 20 ∧
      ((witnessParticle.update { x := 1, y := 0 } 1).history = [] ↔
        (witnessParticle.integrate { x := 1, y := 0 } 1).didBounce)) :=
  ⟨by simp [witnessParticle], rfl,
    history_bounded_and_cleared_iff witnessParticle { x := 1, y := 0 } 1
      (by simp [witnessParticle]) rfl⟩

/-- A fast mid-field particle already at the speed cap. -/
noncomputable def fastParticle : Particle :=
  { x := 400, y := 300, vx := 2, vy := 0, width := 800, height := 600,
    maxSpeed := 2, hue := 0, history := [], maxHistory := 20 }

/-- Counterexample to C5: with velocity (2, 0) and unit force (1, 0), the
post-integration (clamped) speed is 2, so the claim predicts hue = 120; the
code instead computes hue from the pre-clamp speed 2.3 and stores 138, which
also leaves the claimed range [0, 120]. -/
theorem hue_exceeds_claimed_range :
    (fastParticle.update { x := 1, y := 0 } 1).hue = 138 ∧
    ¬(fastParticle.update { x := 1, y := 0 } 1).hue ≤ 120 := by
  have hs : fastParticle.preClampSpeed { x := 1, y := 0 } = 2.3 := by
    unfold Particle.preClampSpeed
    show Real.sqrt (((2 : ℝ) + 1 * 0.3) * (2 + 1 * 0.3) + (0 + 0 * 0.3) * (0 + 0 * 0.3)) = 2.3
    rw [show ((2 : ℝ) + 1 * 0.3) * (2 + 1 * 0.3) + (0 + 0 * 0.3) * (0 + 0 * 0.3) =
      2.3 ^ 2 by norm_num]
    exact Real.sqrt_sq (by norm_num)
  have hhue : (fastParticle.update { x := 1, y := 0 } 1).hue =
      fastParticle.preClampSpeed { x := 1, y := 0 } / fastParticle.maxSpeed * 120 := rfl
  have hm : fastParticle.maxSpeed = 2 := rfl
  rw [hhue, hs, hm]
  norm_num

/-- C5 as amended: the stored hue is the pre-clamp post-force speed of
Particle.ts line 43 divided by maxSpeed and scaled by 120; it is always
nonnegative but it is not clamped to 120. -/
theorem hue_eq_preclamp_speed_ratio (p : Particle) (force : Vector2D) (speed : ℝ)
    (hmax : p.maxSpeed = 2) :
    (p.update force speed).hue = p.preClampSpeed force / 2 * 120 ∧
    0 ≤ (p.update force speed).hue := by
  have h : (p.update force speed).hue = p.preClampSpeed force / p.maxSpeed * 120 := rfl
  rw [h, hmax]
  refine ⟨rfl, ?_⟩
  unfold Particle.preClampSpeed
  positivity

/-- Witness for the amended C5 at a concrete particle. -/
theorem hue_eq_preclamp_speed_ratio_witness :
    scenarioParticle.maxSpeed = 2 ∧
    ((scenarioParticle.update { x := 0, y := 1 } 1).hue =
        scenarioParticle.preClampSpeed { x := 0, y := 1 } / 2 * 120 ∧
      0 ≤ (scenarioParticle.update { x := 0, y := 1 } 1).hue) :=
  ⟨rfl, hue_eq_preclamp_speed_ratio scenarioParticle { x := 0, y := 1 } 1 rfl⟩

/-- C6 evaluation at the failing input: with every Math.random() draw equal
to 1/2, initPerlin fills the table with floor(0.5 * 256) = 128 at every
index, so entries 0 and 1 of the first 256 coincide and they cannot form a
permutation of [0, 255]. -/
theorem initPerlin_repeated_draw_not_a_permutation :
    initPerlinPerm (fun _ => 1 / 2) 0 = 128 ∧
    initPerlinPerm (fun _ => 1 / 2) 1 = 128 ∧
    (0 : ℕ) ≠ 1 := by
  have h : ∀ i, initPerlinP (fun _ => (1 : ℝ) / 2) i = 128 := by
    intro i
    unfold initPerlinP
    rw [show (1 : ℝ) / 2 * 256 = ((128 : ℤ) : ℝ) by norm_num, Int.floor_intCast]
    rfl
  exact ⟨h 0, h 1, by decide⟩

/-- The duplicated-half property of the table does hold: entry i + 256
always equals entry i for i < 256. -/
theorem initPerlinPerm_duplicated (rand : ℕ → ℝ) (i : ℕ) (hi : i < 256) :
    initPerlinPerm rand (i + 256) = initPerlinPerm rand i := by
  unfold initPerlinPerm
  congr 1
  have h1 : (i + 256) &&& 255 = i % 256 := by
    have h := Nat.and_pow_two_sub_one_eq_mod (i + 256) 8
    norm_num at h
    exact h
  have h2 : i &&& 255 = i % 256 := by
    have h := Nat.and_pow_two_sub_one_eq_mod i 8
    norm_num at h
    exact h
  rw [h1, h2]

/-- C7 as amended: growing from 100 to 150 appends exactly 50 particles and
leaves the first 100 untouched; each appended particle is built by the
constructor, which ignores the coordinates passed by setParticleCount and
places the particle uniformly in the 50-unit-inset region
[50, width - 50] x [50, height - 50], with zero velocity and empty history. -/
theorem setParticleCount_grow_appends (sys : ParticleSystem) (rand : ℕ → RandomDraw)
    (hcount : sys.particleCount = 100) (hlen : sys.particles.length = 100)
    (hw : 100 ≤ sys.width) (hh : 100 ≤ sys.height)
    (hr : ∀ i, 0 ≤ (rand i).px ∧ (rand i).px ≤ 1 ∧ 0 ≤ (rand i).py ∧ (rand i).py ≤ 1) :
    (sys.setParticleCount 150 rand).particles.length = 150 ∧
    (sys.setParticleCount 150 rand).particles.take 100 = sys.particles ∧
    ∀ q ∈ (sys.setParticleCount 150 rand).particles.drop 100,
      50 ≤ q.x ∧ q.x ≤ sys.width - 50 ∧ 50 ≤ q.y ∧ q.y ≤ sys.height - 50 ∧
      q.vx = 0 ∧ q.vy = 0 ∧ q.history = [] := by
  have hb : sys.particleCount < 150 := by rw [hcount]; norm_num
  have hsys : sys.setParticleCount 150 rand =
      { sys with
        particles := sys.particles ++ (List.range (150 - sys.particleCount)).map
          (fun i => Particle.make ((rand i).xArg * sys.width) ((rand i).yArg * sys.height)
            sys.width sys.height (rand i).px (rand i).py (rand i).phue)
        particleCount := 150 } := by
    unfold ParticleSystem.setParticleCount
    rw [if_pos hb]
  rw [hsys]
  refine ⟨?_, ?_, ?_⟩
  · simp [List.length_append, hlen, hcount]
  · rw [← hlen, List.take_left]
  · intro q hq
    rw [← hlen, List.drop_left] at hq
    rw [List.mem_map] at hq
    obtain ⟨i, _, hqeq⟩ := hq
    subst hqeq
    obtain ⟨hpx0, hpx1, hpy0, hpy1⟩ := hr i
    unfold Particle.make
    refine ⟨?_, ?_, ?_, ?_, rfl, rfl, rfl⟩
    · have : 0 ≤ (rand i).px * (sys.width - 50 * 2) :=
        mul_nonneg hpx0 (by linarith)
      simp only
      linarith
    · have : (rand i).px * (sys.width - 50 * 2) ≤ 1 * (sys.width - 50 * 2) :=
        mul_le_mul_of_nonneg_right hpx1 (by linarith)
      simp only
      linarith
    · have : 0 ≤ (rand i).py * (sys.height - 50 * 2) :=
        mul_nonneg hpy0 (by linarith)
      simp only
      linarith
    · have : (rand i).py * (sys.height - 50 * 2) ≤ 1 * (sys.height - 50 * 2) :=
        mul_le_mul_of_nonneg_right hpy1 (by linarith)
      simp only
      linarith

/-- A system holding 100 particles, for the C7 witness. -/
noncomputable def hundredSystem : ParticleSystem :=
  { width := 800, height := 600, particleCount := 100,
    particles := List.replicate 100 witnessParticle, speed := 1,
    trailAlpha := 0.95, flowField := sampleField }

/-- A constant random stream with every draw equal to 1/2. -/
noncomputable def halfDraw : ℕ → RandomDraw :=
  fun _ => { xArg := 1 / 2, yArg := 1 / 2, px := 1 / 2, py := 1 / 2, phue := 1 / 2 }

/-- Witness for the amended C7 at a concrete 100-particle system. -/
theorem setParticleCount_grow_appends_witness :
    hundredSystem.particleCount = 100 ∧
    hundredSystem.particles.length = 100 ∧
    (100 : ℝ) ≤ hundredSystem.width ∧ (100 : ℝ) ≤ hundredSystem.height ∧
    (∀ i, 0 ≤ (halfDraw i).px ∧ (halfDraw i).px ≤ 1 ∧
      0 ≤ (halfDraw i).py ∧ (halfDraw i).py ≤ 1) ∧
    (hundredSystem.setParticleCount 150 halfDraw).particles.length = 150 :=
  ⟨rfl, by simp [hundredSystem], by norm_num [hundredSystem],
    by norm_num [hundredSystem], fun i => by norm_num [halfDraw],
    (setParticleCount_grow_appends hundredSystem halfDraw rfl
      (by simp [hundredSystem]) (by norm_num [hundredSystem])
      (by norm_num [hundredSystem]) (fun i => by norm_num [halfDraw])).1⟩

/-- An empty system, for the C7 counterexample. -/
noncomputable def emptySystem : ParticleSystem :=
  { width := 800, height := 600, particleCount := 0, particles := [],
    speed := 1, trailAlpha := 0.95, flowField := sampleField }

/-- A constant random stream with every draw equal to 0. -/
noncomputable def zeroDraw : ℕ → RandomDraw :=
  fun _ => { xArg := 0, yArg := 0, px := 0, py := 0, phue := 0 }

/-- Counterexample to C7 as stated: with every random draw 0, the appended
particle sits at x = 50 (the constructor's 50-unit inset placement), while a
position uniformly drawn from the full bounds would sit at x = 0 * width = 0;
the constructor discards the coordinates setParticleCount passes to it. -/
theorem setParticleCount_not_uniform_over_bounds :
    (emptySystem.setParticleCount 1 zeroDraw).particles.map Particle.x = [50] ∧
    specUniformCoordinate emptySystem.width (zeroDraw 0).xArg = 0 ∧
    (50 : ℝ) ≠ 0 := by
  refine ⟨?_, ?_, by norm_num⟩
  · have hb : emptySystem.particleCount < 1 := by norm_num [emptySystem]
    unfold ParticleSystem.setParticleCount
    rw [if_pos hb]
    simp [emptySystem, zeroDraw, Particle.make, List.range_succ]
  · unfold specUniformCoordinate zeroDraw
    norm_num
